import Mathlib

/-!
Verification development for the mini-agent repository (two Python source
files: `chain_of_thought_agent.py`, the free-text variant, and
`function_call_agent.py`, the structured tool-call variant).

The embedding is shallow: Python strings become `String` (indexed by
codepoints, matching Python's `str.find` semantics, via `List Char`),
JSON values become the inductive `JVal`, Python exceptions become the
inductive `PyExc`, and fallible Python code returns `Except PyExc _` or
carries an explicit `raised` constructor.  External collaborators — the
OpenAI model client, `json.loads`, and the builtin `eval` — are
parameters of the embedded functions (a run is quantified over the
sequence of model responses; `json.loads` and `eval` are quantified over
as total functions returning `Except`, which models "returns a value or
raises a catchable exception").  A small concrete instantiation of the
`eval` parameter (`pyEvalModel`) is provided for evaluating the
development on the concrete inputs the specification names.
-/

/-! ## Python string primitives (codepoint-based, as in CPython) -/

/-- `startsWithSeq s pat` is true iff `pat` is a prefix of `s`
(on codepoint lists; the empty pattern matches everywhere). -/
def startsWithSeq : List Char → List Char → Bool
  | _, [] => true
  | [], _ :: _ => false
  | c :: s, p :: ps => c == p && startsWithSeq s ps

/-- `containsSeq pat s` models Python's `pat in s` substring test. -/
def containsSeq (pat : List Char) : List Char → Bool
  | [] => startsWithSeq [] pat
  | c :: t => startsWithSeq (c :: t) pat || containsSeq pat t

/-- `pyFindAux pat s i` models Python's `s.find(pat)` offset by `i`:
the index (plus `i`) of the first occurrence of `pat` in `s`,
or `none` when absent (Python returns `-1`). -/
def pyFindAux (pat : List Char) : List Char → Nat → Option Nat
  | [], i => if startsWithSeq [] pat then some i else none
  | c :: t, i => if startsWithSeq (c :: t) pat then some i else pyFindAux pat t (i + 1)

/-- `strContains s pat` models Python's `pat in s` on strings. -/
def strContains (s pat : String) : Bool :=
  containsSeq pat.data s.data

/-- Characters stripped by Python's `str.strip()` (ASCII whitespace;
the sources only ever strip ordinary text). -/
def isPySpace (c : Char) : Bool :=
  c == ' ' || c == '\n' || c == '\t' || c == '\x0d' || c == '\x0b' || c == '\x0c'

/-- Python `str.strip()` on a codepoint list. -/
def listStrip (s : List Char) : List Char :=
  ((s.dropWhile isPySpace).reverse.dropWhile isPySpace).reverse

/-- Python `str.strip()`. -/
def stripStr (s : String) : String :=
  String.mk (listStrip s.data)

/-- Truthiness of an optional string, as in Python
(`None` and `""` are falsy). -/
def optStrTruthy : Option String → Bool
  | none => false
  | some s => !(s == "")

/-! ## JSON / Python values and exceptions -/

/-- Values produced by `json.loads` (and by the modelled `eval`):
strings, integers, booleans, null, arrays, objects.  JSON floats do not
occur in any behaviour the specification describes and are not modelled. -/
inductive JVal where
  | jStr : String → JVal
  | jNum : Int → JVal
  | jBool : Bool → JVal
  | jNull : JVal
  | jArr : List JVal → JVal
  | jObj : List (String × JVal) → JVal
deriving Repr

/-- Python truthiness of a `JVal` (`bool(x)`). -/
def jTruthy : JVal → Bool
  | .jStr s => !(s == "")
  | .jNum n => !(n == 0)
  | .jBool b => b
  | .jNull => false
  | .jArr l => !l.isEmpty
  | .jObj l => !l.isEmpty

/-- Python type name of a `JVal`, as used in error messages. -/
def pyTypeName : JVal → String
  | .jStr _ => "str"
  | .jNum _ => "int"
  | .jBool _ => "bool"
  | .jNull => "NoneType"
  | .jArr _ => "list"
  | .jObj _ => "dict"

/-- Comma-space join, as Python's container `repr` uses. -/
def joinComma : List String → String
  | [] => ""
  | [s] => s
  | s :: t => s ++ ", " ++ joinComma t

mutual
/-- Python `repr` of a `JVal`. -/
def pyRepr : JVal → String
  | .jStr s => "'" ++ s ++ "'"
  | .jNum n => toString n
  | .jBool b => if b then "True" else "False"
  | .jNull => "None"
  | .jArr l => "[" ++ joinComma (pyReprList l) ++ "]"
  | .jObj l => "\x7b" ++ joinComma (pyReprFields l) ++ "\x7d"

/-- `repr` of each element of a list. -/
def pyReprList : List JVal → List String
  | [] => []
  | v :: vs => pyRepr v :: pyReprList vs

/-- `repr` of each `key: value` entry of a dict. -/
def pyReprFields : List (String × JVal) → List String
  | [] => []
  | (k, v) :: vs => ("'" ++ k ++ "': " ++ pyRepr v) :: pyReprFields vs
end

/-- Python `str()` of a `JVal`: identity on strings, `repr` otherwise. -/
def pyStr : JVal → String
  | .jStr s => s
  | v => pyRepr v

/-- Catchable Python exceptions raised by the code under `src/`
(each carries its `str(e)` message). -/
inductive PyExc where
  | typeError (msg : String)
  | attributeError (msg : String)
  | validationError (msg : String)
  | indexError (msg : String)
deriving DecidableEq, Repr

/-- The `str(e)` of a modelled exception. -/
def PyExc.msg : PyExc → String
  | .typeError m => m
  | .attributeError m => m
  | .validationError m => m
  | .indexError m => m

/-- Dict lookup on an association list (dict keys are unique, so
first-match lookup agrees with Python's `dict.get`). -/
def listLookup (l : List (String × JVal)) (k : String) : Option JVal :=
  match l with
  | [] => none
  | (k', v) :: t => if k' == k then some v else listLookup t k

/-- Keyword-argument binding for a Python function of a single required
parameter `pname`, called as `f(**args)`: an unexpected key raises
`TypeError`, a missing key raises `TypeError`, otherwise the value binds.
`fname` is the function name appearing in the message. -/
def bindKwarg (pname fname : String) (args : List (String × JVal)) : Except PyExc JVal :=
  match args.find? (fun kv => !(kv.fst == pname)) with
  | some kv =>
    .error (.typeError (fname ++ "() got an unexpected keyword argument '" ++ kv.fst ++ "'"))
  | none =>
    match listLookup args pname with
    | some v => .ok v
    | none =>
      .error (.typeError
        (fname ++ "() missing 1 required positional argument: '" ++ pname ++ "'"))

/-- Type of the external `json.loads` collaborator: total, returning
either the parsed value or the raised `JSONDecodeError`'s message. -/
abbrev JsonFn := String → Except String JVal

/-- Type of the external `eval(expr, #"__builtins__": #)` collaborator
(`#` standing for braces): total, returning either the value or the
raised exception's `str`. -/
abbrev EvFn := String → Except String JVal

/-! ## A concrete model of Python's builtin `eval`

Both `CalculatorTool` bodies call
`eval(expression, #"__builtins__": #, #)` (braces written `#`): the
globals dict strips the builtins and the locals dict is empty, so every
name lookup raises `NameError` — this is the namespace restriction the
specification describes.  `eval` itself is a language builtin, not
repository code, so the agents are parameterized over an `EvFn`;
`pyEvalModel` below is a concrete instantiation covering the expression
fragment the specification exercises: integer literals, string literals
in single quotes, identifiers, `+`, `-`, `*`, parentheses and call
syntax.  Any identifier in evaluation position raises
`NameError: name 'x' is not defined` exactly as CPython does under the
emptied namespaces (in `__import__('os')` the callee name is evaluated
first, so the lookup fails before the call happens and no side effect
occurs).  Arguments of a call to a non-callable value are not evaluated
by the model (CPython evaluates them before raising `TypeError`; the
difference is observable only through the error message of inputs the
specification never mentions). -/

/-- The single-quote character (string-literal delimiter). -/
def quoteChar : Char := Char.ofNat 39

/-- Tokens of the modelled expression fragment. -/
inductive PyTok where
  | tInt (n : Nat)
  | tName (s : String)
  | tStr (s : String)
  | tOp (c : Char)
deriving DecidableEq, Repr

/-- Is `c` a character that may continue an identifier. -/
def isIdentCh (c : Char) : Bool :=
  c.isAlpha || c.isDigit || c == '_'

/-- Digits to a natural number (most significant first). -/
def digitsToNat (ds : List Char) : Nat :=
  ds.foldl (fun acc c => acc * 10 + (c.toNat - 48)) 0

/-- Split a string literal body at the closing quote; `none` models an
unterminated literal (a `SyntaxError`). -/
def splitAtQuote : List Char → Option (List Char × List Char)
  | [] => none
  | c :: t =>
    if c == quoteChar then some ([], t)
    else match splitAtQuote t with
      | some (body, rest) => some (c :: body, rest)
      | none => none

/-- Fueled tokenizer; `none` models a `SyntaxError`. -/
def tokenize : Nat → List Char → Option (List PyTok)
  | 0, _ => none
  | _, [] => some []
  | fuel + 1, c :: rest =>
    if c == ' ' then tokenize fuel rest
    else if c.isDigit then
      let ds := (c :: rest).takeWhile Char.isDigit
      let rest' := (c :: rest).dropWhile Char.isDigit
      match tokenize fuel rest' with
      | some ts => some (.tInt (digitsToNat ds) :: ts)
      | none => none
    else if c.isAlpha || c == '_' then
      let id := (c :: rest).takeWhile isIdentCh
      let rest' := (c :: rest).dropWhile isIdentCh
      match tokenize fuel rest' with
      | some ts => some (.tName (String.mk id) :: ts)
      | none => none
    else if c == quoteChar then
      match splitAtQuote rest with
      | some (body, rest') =>
        match tokenize fuel rest' with
        | some ts => some (.tStr (String.mk body) :: ts)
        | none => none
      | none => none
    else if c == '+' || c == '-' || c == '*' || c == '(' || c == ')' || c == ',' then
      match tokenize fuel rest with
      | some ts => some (.tOp c :: ts)
      | none => none
    else none

/-- Expressions of the modelled fragment. -/
inductive PyExpr where
  | eInt (n : Nat)
  | eStr (s : String)
  | eName (s : String)
  | eNeg (e : PyExpr)
  | eBin (op : Char) (a b : PyExpr)
  | eCall (f : PyExpr) (args : List PyExpr)
deriving Repr

mutual
/-- Atom: literal, name (with optional call suffix), parenthesised
expression, or unary minus. -/
def parseAtom : Nat → List PyTok → Option (PyExpr × List PyTok)
  | 0, _ => none
  | fuel + 1, ts =>
    match ts with
    | .tInt n :: rest => parseCallSuffix fuel (.eInt n) rest
    | .tStr s :: rest => parseCallSuffix fuel (.eStr s) rest
    | .tName s :: rest => parseCallSuffix fuel (.eName s) rest
    | .tOp '-' :: rest =>
      match parseAtom fuel rest with
      | some (e, rest') => some (.eNeg e, rest')
      | none => none
    | .tOp '(' :: rest =>
      match parseExpr fuel rest with
      | some (e, .tOp ')' :: rest') => parseCallSuffix fuel e rest'
      | _ => none
    | _ => none

/-- Optional trailing call `f(a, b, ...)`. -/
def parseCallSuffix : Nat → PyExpr → List PyTok → Option (PyExpr × List PyTok)
  | 0, _, _ => none
  | fuel + 1, f, ts =>
    match ts with
    | .tOp '(' :: .tOp ')' :: rest => parseCallSuffix fuel (.eCall f []) rest
    | .tOp '(' :: rest =>
      match parseArgs fuel rest with
      | some (args, .tOp ')' :: rest') => parseCallSuffix fuel (.eCall f args) rest'
      | _ => none
    | _ => some (f, ts)

/-- Comma-separated nonempty argument list. -/
def parseArgs : Nat → List PyTok → Option (List PyExpr × List PyTok)
  | 0, _ => none
  | fuel + 1, ts =>
    match parseExpr fuel ts with
    | some (e, .tOp ',' :: rest) =>
      match parseArgs fuel rest with
      | some (es, rest') => some (e :: es, rest')
      | none => none
    | some (e, rest) => some ([e], rest)
    | none => none

/-- Multiplicative level. -/
def parseTerm : Nat → List PyTok → Option (PyExpr × List PyTok)
  | 0, _ => none
  | fuel + 1, ts =>
    match parseAtom fuel ts with
    | some (e, rest) => parseTermTail fuel e rest
    | none => none

/-- Trailing `* atom` repetitions. -/
def parseTermTail : Nat → PyExpr → List PyTok → Option (PyExpr × List PyTok)
  | 0, _, _ => none
  | fuel + 1, a, ts =>
    match ts with
    | .tOp '*' :: rest =>
      match parseAtom fuel rest with
      | some (b, rest') => parseTermTail fuel (.eBin '*' a b) rest'
      | none => none
    | _ => some (a, ts)

/-- Additive level. -/
def parseExpr : Nat → List PyTok → Option (PyExpr × List PyTok)
  | 0, _ => none
  | fuel + 1, ts =>
    match parseTerm fuel ts with
    | some (e, rest) => parseExprTail fuel e rest
    | none => none

/-- Trailing `+ term` / `- term` repetitions. -/
def parseExprTail : Nat → PyExpr → List PyTok → Option (PyExpr × List PyTok)
  | 0, _, _ => none
  | fuel + 1, a, ts =>
    match ts with
    | .tOp '+' :: rest =>
      match parseTerm fuel rest with
      | some (b, rest') => parseExprTail fuel (.eBin '+' a b) rest'
      | none => none
    | .tOp '-' :: rest =>
      match parseTerm fuel rest with
      | some (b, rest') => parseExprTail fuel (.eBin '-' a b) rest'
      | none => none
    | _ => some (a, ts)
end

/-- Replicate a string (Python `str * int`). -/
def strRepeat : Nat → String → String
  | 0, _ => ""
  | n + 1, s => s ++ strRepeat n s

/-- Evaluate a parsed expression under the emptied namespaces of the
calculator tools: every name raises `NameError`; arithmetic on
integers and `+`/`*` on strings behave as in Python. -/
def evalPyExpr : PyExpr → Except String JVal
  | .eInt n => .ok (.jNum n)
  | .eStr s => .ok (.jStr s)
  | .eName s => .error ("name '" ++ s ++ "' is not defined")
  | .eNeg e =>
    match evalPyExpr e with
    | .ok (.jNum n) => .ok (.jNum (-n))
    | .ok v => .error ("bad operand type for unary -: '" ++ pyTypeName v ++ "'")
    | .error m => .error m
  | .eBin op a b =>
    match evalPyExpr a with
    | .error m => .error m
    | .ok va =>
      match evalPyExpr b with
      | .error m => .error m
      | .ok vb =>
        match op, va, vb with
        | '+', .jNum x, .jNum y => .ok (.jNum (x + y))
        | '+', .jStr x, .jStr y => .ok (.jStr (x ++ y))
        | '-', .jNum x, .jNum y => .ok (.jNum (x - y))
        | '*', .jNum x, .jNum y => .ok (.jNum (x * y))
        | '*', .jStr x, .jNum y => .ok (.jStr (strRepeat y.toNat x))
        | c, x, y =>
          .error ("unsupported operand type(s) for " ++ String.mk [c] ++ ": '" ++
            pyTypeName x ++ "' and '" ++ pyTypeName y ++ "'")
  | .eCall f _ =>
    match evalPyExpr f with
    | .error m => .error m
    | .ok v => .error ("'" ++ pyTypeName v ++ "' object is not callable")

/-- Concrete instantiation of the external `eval` collaborator on the
modelled fragment (syntax check first, then evaluation, as CPython
compiles before it evaluates). -/
def pyEvalModel : EvFn := fun expression =>
  match tokenize (expression.data.length + 1) expression.data with
  | none => .error "invalid syntax (<string>, line 1)"
  | some toks =>
    match parseExpr (4 * toks.length + 4) toks with
    | some (e, []) => evalPyExpr e
    | _ => .error "invalid syntax (<string>, line 1)"


/-! ## Shared tool bodies

The `CalculatorTool` and `SearchTool` bodies are character-for-character
identical in the two source files (`run` in `chain_of_thought_agent.py`,
`execute` in `function_call_agent.py`); they are defined once here. -/

/-- Body of `CalculatorTool.run` / `CalculatorTool.execute`
(lines 75–81 and 60–66): `eval` the expression under emptied
namespaces inside `try`, formatting success as `计算结果: ...` and any
caught exception as `计算错误: str(e)`.  A non-string argument makes
`eval` itself raise `TypeError`, which the same handler catches. -/
def calculatorBody (ev : EvFn) (expression : JVal) : String :=
  match expression with
  | .jStr s =>
    match ev s with
    | .ok result => "计算结果: " ++ pyStr result
    | .error e => "计算错误: " ++ e
  | _ => "计算错误: eval() arg 1 must be a string, bytes or code object"

/-- Body of `SearchTool.run` / `SearchTool.execute` (lines 101–104 and
86–89): a fixed templated string embedding the query. -/
def searchBody (query : JVal) : String :=
  "这是关于'" ++ pyStr query ++ "'的搜索结果。在实际应用中，这里会返回真实的搜索结果。"

/-- Join a list of strings with newlines (`"\n".join(...)`). -/
def joinNl : List String → String
  | [] => ""
  | [s] => s
  | s :: t => s ++ "\n" ++ joinNl t

/-- The `parameters` schema of the calculator tools. -/
def calculatorParameters : JVal :=
  .jObj [("type", .jStr "object"),
    ("properties", .jObj [("expression", .jObj [("type", .jStr "string"),
      ("description", .jStr "要计算的数学表达式，例如：3 + 5 * 2")])]),
    ("required", .jArr [.jStr "expression"])]

/-- The `parameters` schema of the search tools. -/
def searchParameters : JVal :=
  .jObj [("type", .jStr "object"),
    ("properties", .jObj [("query", .jObj [("type", .jStr "string"),
      ("description", .jStr "搜索关键词或问题")])]),
    ("required", .jArr [.jStr "query"])]

/-! ## `chain_of_thought_agent.py` — the free-text variant -/

namespace Cot

/-- `ToolCall` (pydantic model, lines 20–23). -/
structure ToolCall where
  name : String
  arguments : List (String × JVal)
deriving Repr

/-- `Thought` (pydantic model, lines 25–29). -/
structure Thought where
  thought : String
  reasoning : String
  plan : List String
deriving DecidableEq, Repr

/-- `Observation` (pydantic model, lines 31–34). -/
structure Observation where
  content : String
  tool_calls : Option (List ToolCall)
deriving Repr

/-- `Action` (pydantic model, lines 36–39). -/
structure Action where
  tool : String
  tool_input : List (String × JVal)
deriving Repr

/-- `AgentState` (lines 41–46): accumulators for introspection plus the
final answer. -/
structure AgentState where
  thoughts : List Thought := []
  observations : List Observation := []
  actions : List Action := []
  final_answer : Option String := none
deriving Repr

/-- `AgentState()` — the freshly constructed state. -/
def AgentState.init : AgentState := {}

/-- `BaseTool` (lines 48–55): a named capability.  Its `run` models the
Python call `tool.run(**kwargs)`: keyword binding may raise `TypeError`,
the bound body returns a string. -/
structure BaseTool where
  name : String
  description : String
  parameters : JVal
  run : List (String × JVal) → Except PyExc String

/-- `CalculatorTool` (lines 57–81), closed over the external `eval`. -/
def CalculatorTool (ev : EvFn) : BaseTool :=
  { name := "calculator", description := "用于执行数学计算",
    parameters := calculatorParameters,
    run := fun kwargs =>
      match bindKwarg "expression" "run" kwargs with
      | .ok v => .ok (calculatorBody ev v)
      | .error e => .error e }

/-- `SearchTool` (lines 83–104). -/
def SearchTool : BaseTool :=
  { name := "search", description := "用于搜索信息",
    parameters := searchParameters,
    run := fun kwargs =>
      match bindKwarg "query" "run" kwargs with
      | .ok v => .ok (searchBody v)
      | .error e => .error e }

/-- The default tool list of `CotAgent.__init__` (line 110). -/
def defaultTools (ev : EvFn) : List BaseTool :=
  [CalculatorTool ev, SearchTool]

/-- A role-tagged message of the free-text conversation log. -/
structure Msg where
  role : String
  content : String
deriving DecidableEq, Repr

/-- `CotAgent.max_iterations` (line 112). -/
def maxIterations : Nat := 5

/-- `CotAgent._get_system_prompt` (lines 114–147), with the `format`
substitution of the tool list already performed. -/
def getSystemPrompt (tools : List BaseTool) : String :=
  "你是一个智能助手，使用思维链(Chain of Thought)来解决问题。\n        请按照以下步骤进行思考：\n        1. 分析问题并制定解决计划\n        2. 如果需要使用工具，请明确说明要使用哪个工具以及输入参数\n        3. 根据工具的返回结果进行观察和分析\n        4. 最终给出明确的答案\n        \n        你可以使用的工具：\n        "
  ++ joinNl (tools.map fun tool => "- " ++ tool.name ++ ": " ++ tool.description)
  ++ "\n        \n        请始终按照以下格式输出：\n        ```\n        思考：<你的思考过程>\n        计划：\n        - 第一步\n        - 第二步\n        ...\n        \n        行动：\n        ```json\n        \x7b\x7b\n            \"tool\": \"工具名称\",\n            \"tool_input\": \x7b\x7b\"参数名\": \"参数值\"\x7d\x7d\n        \x7d\x7d\n        ```\n        \n        观察：<工具返回的结果>\n        \n        最终答案：<你的最终回答>\n        "

/-- `CotAgent._extract_action` (lines 149–161): slice between the
first `` ```json `` fence opener and the first following `` ``` ``
closer, strip, `json.loads`; any failure (absent markers or a parse
error, caught by the surrounding `try`) yields `None`. -/
def extractAction (jl : JsonFn) (text : String) : Option JVal :=
  match pyFindAux "```json\n".data text.data 0 with
  | none => none
  | some i =>
    match pyFindAux "\n```".data (text.data.drop (i + 8)) 0 with
    | none => none
    | some j =>
      match jl (String.mk (listStrip ((text.data.take (i + 8 + j)).drop (i + 8)))) with
      | .ok v => some v
      | .error _ => none

/-- `CotAgent._extract_thought` (lines 163–172): the stripped substring
between `思考：` and the next blank line (or end of text); an absent
marker yields `""`. -/
def extractThought (text : String) : String :=
  match pyFindAux "思考：".data text.data 0 with
  | none => ""
  | some i =>
    match pyFindAux "\n\n".data (text.data.drop (i + 3)) 0 with
    | none => String.mk (listStrip ((text.data.take text.data.length).drop (i + 3)))
    | some j => String.mk (listStrip ((text.data.take (i + 3 + j)).drop (i + 3)))

/-- `CotAgent._extract_final_answer` (lines 174–180): `None` when the
marker `最终答案：` is absent; otherwise the stripped text after the
first occurrence of the marker. -/
def extractFinalAnswer (text : String) : Option String :=
  match pyFindAux "最终答案：".data text.data 0 with
  | none => none
  | some i => some (String.mk (listStrip (text.data.drop (i + 5))))

/-- `CotAgent._run_tool` (lines 182–187): first tool whose name matches
exactly is invoked (`tool.run(**tool_input)` may raise); if none
matches, a sentinel error string naming the missing tool is returned. -/
def runTool (tools : List BaseTool) (tool_name : String)
    (tool_input : List (String × JVal)) : Except PyExc String :=
  match tools with
  | [] => .ok ("错误：找不到工具 '" ++ tool_name ++ "'")
  | tool :: rest =>
    if tool.name == tool_name then tool.run tool_input
    else runTool rest tool_name tool_input

/-- Result of one iteration of the `for` loop in `CotAgent.run`. -/
inductive CotStep where
  | answered (ans : String) (st : AgentState)
  | next (messages : List Msg) (st : AgentState)
  | raised (e : PyExc) (st : AgentState)

/-- Steps 4–5 of a round of `CotAgent.run` (lines 234–264): extract and
execute the action.  A falsy action (`None`, or a falsy parsed value
such as `\x7b\x7d`) continues to the next round, appending nothing.  A
truthy non-dict raises `AttributeError` at `action.get`; a missing or
non-string `tool` or a non-dict `tool_input` raises a pydantic
`ValidationError` at `Action(...)` (its long message is modelled by a
fixed string); keyword-binding failure in `tool.run(**tool_input)`
raises `TypeError`.  On success the assistant text and then the framed
observation are appended to the message log. -/
def cotActionPhase (jl : JsonFn) (tools : List BaseTool) (response : String)
    (messages : List Msg) (st : AgentState) : CotStep :=
  match extractAction jl response with
  | none => .next messages st
  | some action =>
    if !(jTruthy action) then .next messages st
    else
      match action with
      | .jObj fields =>
        match listLookup fields "tool" with
        | some (.jStr tool_name) =>
          match (listLookup fields "tool_input").getD (.jObj []) with
          | .jObj tool_input =>
            let st := { st with
              actions := st.actions ++ [{ tool := tool_name, tool_input := tool_input }] }
            match runTool tools tool_name tool_input with
            | .ok observation =>
              let st := { st with
                observations := st.observations ++
                  [{ content := observation,
                     tool_calls := some [{ name := tool_name, arguments := tool_input }] }] }
              .next (messages ++
                [{ role := "assistant", content := response },
                 { role := "user", content := "观察：" ++ observation }]) st
            | .error e => .raised e st
          | _ => .raised (.validationError "1 validation error for Action") st
        | _ => .raised (.validationError "1 validation error for Action") st
      | _ =>
        .raised (.attributeError
          ("'" ++ pyTypeName action ++ "' object has no attribute 'get'")) st

/-- Step 2 of a round (lines 218–225): append a truthy extracted
thought to the state. -/
def recordThought (response : String) (st : AgentState) : AgentState :=
  if extractThought response == "" then st
  else { st with thoughts := st.thoughts ++
    [{ thought := extractThought response, reasoning := "", plan := [] }] }

/-- One iteration of the `for` loop in `CotAgent.run` (lines 211–264),
given this round's model response: record a truthy thought, terminate
with a truthy final answer, otherwise run the action phase. -/
def cotRound (jl : JsonFn) (tools : List BaseTool) (response : String)
    (messages : List Msg) (st : AgentState) : CotStep :=
  match extractFinalAnswer response with
  | some a =>
    if a == "" then cotActionPhase jl tools response messages (recordThought response st)
    else .answered a { recordThought response st with final_answer := some a }
  | none => cotActionPhase jl tools response messages (recordThought response st)

/-- Outcome of `CotAgent.run`: either the returned string (a found
final answer or the exhaustion sentinel) with the final message log,
agent state and number of model calls made, or an uncaught exception
(with the state at the point of raising and the calls made). -/
inductive CotResult where
  | ok (ret : String) (messages : List Msg) (state : AgentState) (calls : Nat)
  | exc (e : PyExc) (state : AgentState) (calls : Nat)
deriving Repr

/-- The bounded loop of `CotAgent.run`: `fuel` iterations remain,
`calls` model calls were made so far.  `llm k` is the (externally
supplied) text completion of the `k`-th model call; `_call_llm`
catches its own exceptions, so the completion is total. -/
def cotLoop (jl : JsonFn) (tools : List BaseTool) (llm : Nat → String) :
    Nat → Nat → List Msg → AgentState → CotResult
  | 0, calls, messages, st => .ok "达到最大迭代次数，未能找到答案。" messages st calls
  | fuel + 1, calls, messages, st =>
    match cotRound jl tools (llm calls) messages st with
    | .answered a st => .ok a messages st (calls + 1)
    | .next messages' st => cotLoop jl tools llm fuel (calls + 1) messages' st
    | .raised e st => .exc e st (calls + 1)

/-- `CotAgent.run` (lines 202–266): seed the message log with the
system prompt and the query, then loop up to `max_iterations` times.
The agent's accumulated state `st` is whatever `self.state` held at
entry — `run` does not reset it. -/
def run (jl : JsonFn) (tools : List BaseTool) (llm : Nat → String)
    (query : String) (st : AgentState) : CotResult :=
  cotLoop jl tools llm maxIterations 0
    [{ role := "system", content := getSystemPrompt tools },
     { role := "user", content := query }] st

end Cot

/-! ## `function_call_agent.py` — the structured tool-call variant -/

namespace FC

/-- `Tool` (lines 33–40): as `Cot.BaseTool`, with the invocation method
named `execute`. -/
structure Tool where
  name : String
  description : String
  parameters : JVal
  execute : List (String × JVal) → Except PyExc String

/-- `CalculatorTool` (lines 42–66), closed over the external `eval`. -/
def CalculatorTool (ev : EvFn) : Tool :=
  { name := "calculator", description := "用于执行数学计算",
    parameters := calculatorParameters,
    execute := fun kwargs =>
      match bindKwarg "expression" "execute" kwargs with
      | .ok v => .ok (calculatorBody ev v)
      | .error e => .error e }

/-- `SearchTool` (lines 68–89). -/
def SearchTool : Tool :=
  { name := "search", description := "用于搜索信息",
    parameters := searchParameters,
    execute := fun kwargs =>
      match bindKwarg "query" "execute" kwargs with
      | .ok v => .ok (searchBody v)
      | .error e => .error e }

/-- The default tool list of `FunctionCallAgent.__init__` (line 95). -/
def defaultTools (ev : EvFn) : List Tool :=
  [CalculatorTool ev, SearchTool]

/-- `FunctionCallAgent.max_iterations` (line 97). -/
def maxIterations : Nat := 5

/-- `FunctionCallAgent._get_system_prompt` (lines 99–109), with the
`format` substitution of the tool list already performed. -/
def getSystemPrompt (tools : List Tool) : String :=
  "你是一个智能助手，可以使用工具来帮助用户解决问题。\n        你可以使用的工具：\n        "
  ++ joinNl (tools.map fun tool => "- " ++ tool.name ++ ": " ++ tool.description)
  ++ "\n        \n        当需要调用工具时，请按照工具定义的格式提供参数。\n        工具调用完成后，我会将结果返回给你。\n        "

/-- `FunctionCallAgent._get_tools_schema` (lines 111–120). -/
def getToolsSchema (tools : List Tool) : List JVal :=
  tools.map fun tool =>
    .jObj [("type", .jStr "function"),
      ("function", .jObj [("name", .jStr tool.name),
        ("description", .jStr tool.description),
        ("parameters", tool.parameters)])]

/-- Format an optional string as Python's f-string does
(`None` prints as `None`). -/
def pyFormatOptStr : Option String → String
  | none => "None"
  | some s => s

/-- `FunctionCallAgent._execute_tool` (lines 122–127): exact
case-sensitive name lookup; a missing tool yields the sentinel error
string.  The accumulated `function.name` may be `None` (it then matches
no tool, `str == None` being false).  On a match, `tool.execute(**arguments)`
first requires `arguments` to be a mapping (otherwise the
call raises `TypeError`), then binds the keyword arguments. -/
def executeTool (tools : List Tool) (tool_name : Option String)
    (arguments : JVal) : Except PyExc String :=
  match tools with
  | [] => .ok ("错误：找不到工具 '" ++ pyFormatOptStr tool_name ++ "'")
  | tool :: rest =>
    if (match tool_name with | some s => tool.name == s | none => false) then
      match arguments with
      | .jObj kwargs => tool.execute kwargs
      | _ => .error (.typeError "execute() argument after ** must be a mapping")
    else executeTool rest tool_name arguments

/-- An accumulated tool-call entry (the dicts built at lines 204–211):
`id` and `function.name` are whatever the establishing delta carried
(possibly `None`); `arguments` is the growing argument-string buffer.
The constant `"type": "function"` entry is not modelled. -/
structure AccToolCall where
  id : Option String
  name : Option String
  arguments : String
deriving DecidableEq, Repr

/-- A message of the structured conversation history: the seed system
and user messages, an assistant text message, an assistant message
carrying only tool calls (content `None`, lines 227–240), or a
tool-role response `\x7btool_call_id, role, name, content\x7d`
(lines 145–150 and 155–160). -/
inductive FMsg where
  | mSystem (content : String)
  | mUser (content : String)
  | mAssistant (content : String)
  | mAssistantCalls (tool_calls : List AccToolCall)
  | mTool (tool_call_id : Option String) (name : Option String) (content : String)
deriving DecidableEq, Repr

/-- `FunctionCallAgent._process_tool_calls` (lines 129–162): for each
accumulated call, parse the argument buffer and dispatch, a `try`
converting every exception (JSON parse failure, `**` on a non-mapping,
keyword-binding failure) into an error-message content; each call
yields exactly one tool-role response. -/
def processToolCalls (jl : JsonFn) (tools : List Tool)
    (tool_calls : List AccToolCall) : List FMsg :=
  tool_calls.map fun tc =>
    let content :=
      match jl tc.arguments with
      | .error m => "执行工具 " ++ pyFormatOptStr tc.name ++ " 时出错: " ++ m
      | .ok arguments =>
        match executeTool tools tc.name arguments with
        | .ok result => result
        | .error e => "执行工具 " ++ pyFormatOptStr tc.name ++ " 时出错: " ++ e.msg
    FMsg.mTool tc.id tc.name content

/-- One tool-call delta of a streamed chunk (`tool_call` at lines
202–215): an index, optional id and function name, and an optional
argument-text fragment. -/
structure ToolCallDelta where
  index : Nat
  id : Option String
  fname : Option String
  arguments : Option String
deriving DecidableEq, Repr

/-- One streamed chunk's delta (lines 192–215): optional text content
and the tool-call deltas (an absent `delta.tool_calls` is modelled by
`[]`, which has the same falsiness and iterates identically). -/
structure ChunkDelta where
  content : Option String
  tool_calls : List ToolCallDelta
deriving Repr

/-- Accumulation of one tool-call delta (lines 203–215): if the entry
list is not yet longer than the delta's index, append a fresh entry
seeded from this delta with an empty argument buffer; then, if the
delta carries a truthy argument fragment, append it to the buffer of
the entry at the delta's index (raising `IndexError` when an
out-of-order index leaves that slot absent). -/
def accStep (tool_calls : List AccToolCall) (tc : ToolCallDelta) :
    Except PyExc (List AccToolCall) :=
  let tool_calls :=
    if tool_calls.length ≤ tc.index then
      tool_calls ++ [{ id := tc.id, name := tc.fname, arguments := "" }]
    else tool_calls
  match tc.arguments with
  | none => .ok tool_calls
  | some s =>
    if s == "" then .ok tool_calls
    else
      match tool_calls.get? tc.index with
      | some entry =>
        .ok (tool_calls.set tc.index { entry with arguments := entry.arguments ++ s })
      | none => .error (.indexError "list index out of range")

/-- Fold `accStep` over the tool-call deltas of one chunk. -/
def accSteps : List AccToolCall → List ToolCallDelta → Except PyExc (List AccToolCall)
  | acc, [] => .ok acc
  | acc, tc :: tcs =>
    match accStep acc tc with
    | .ok acc => accSteps acc tcs
    | .error e => .error e

/-- The stream-draining loop of `FunctionCallAgent.run` (lines
188–215): concatenate truthy text deltas into `response_content`
(each also yielded to the caller as it arrives — the yielding itself
has no effect on the loop's state) and accumulate tool-call deltas. -/
def processStream (response_content : String) (tool_calls : List AccToolCall) :
    List ChunkDelta → Except PyExc (String × List AccToolCall)
  | [] => .ok (response_content, tool_calls)
  | chunk :: chunks =>
    let response_content :=
      if optStrTruthy chunk.content then response_content ++ chunk.content.getD ""
      else response_content
    match accSteps tool_calls chunk.tool_calls with
    | .ok tool_calls => processStream response_content tool_calls chunks
    | .error e => .error e

/-- Result of one iteration of the `while` loop in
`FunctionCallAgent.run`. -/
inductive FCStep where
  | done (text : String) (history : List FMsg)
  | next (history : List FMsg)
  | raised (e : PyExc) (history : List FMsg)

/-- One iteration of the `while` loop (lines 175–258), given this
round's streamed chunks: drain the stream; append the text (if truthy)
as an assistant message; if tool calls were accumulated, append the
assistant tool-call message and the tool responses and continue; else
terminate with the text when truthy, or fall through to the next
round. -/
def fcRound (jl : JsonFn) (tools : List Tool) (chunks : List ChunkDelta)
    (history : List FMsg) : FCStep :=
  match processStream "" [] chunks with
  | .error e => .raised e history
  | .ok (response_content, tool_calls) =>
    let history :=
      if response_content == "" then history
      else history ++ [.mAssistant response_content]
    if !tool_calls.isEmpty then
      .next (history ++ [.mAssistantCalls tool_calls] ++ processToolCalls jl tools tool_calls)
    else if response_content == "" then .next history
    else .done response_content history

/-- Outcome of `FunctionCallAgent.run`: termination with a final text,
silent budget exhaustion, or an uncaught exception; each carries the
conversation history and the number of model calls made. -/
inductive FCResult where
  | answered (text : String) (history : List FMsg) (calls : Nat)
  | exhausted (history : List FMsg) (calls : Nat)
  | exc (e : PyExc) (history : List FMsg) (calls : Nat)
deriving Repr

/-- The bounded `while` loop of `FunctionCallAgent.run`; `stream k` is
the chunk sequence of the `k`-th model call (the model client is the
external collaborator). -/
def fcLoop (jl : JsonFn) (tools : List Tool) (stream : Nat → List ChunkDelta) :
    Nat → Nat → List FMsg → FCResult
  | 0, calls, history => .exhausted history calls
  | fuel + 1, calls, history =>
    match fcRound jl tools (stream calls) history with
    | .done text history => .answered text history (calls + 1)
    | .next history => fcLoop jl tools stream fuel (calls + 1) history
    | .raised e history => .exc e history (calls + 1)

/-- `FunctionCallAgent.run` (lines 164–260): reset the conversation
history to the system prompt and the query, then loop up to
`max_iterations` rounds. -/
def run (jl : JsonFn) (tools : List Tool) (stream : Nat → List ChunkDelta)
    (query : String) : FCResult :=
  fcLoop jl tools stream maxIterations 0
    [.mSystem (getSystemPrompt tools), .mUser query]

end FC

/-! ## Auxiliary predicates used by the theorems -/

/-- Is a loop-step a successful termination. -/
def Cot.CotStep.isAnswered : Cot.CotStep → Bool
  | .answered _ _ => true
  | _ => false

/-- Did the free-text run raise an uncaught exception. -/
def Cot.CotResult.isExc : Cot.CotResult → Bool
  | .exc _ _ _ => true
  | _ => false

/-- The exhaustion sentinel returned by `CotAgent.run` (line 266). -/
def Cot.sentinel : String := "达到最大迭代次数，未能找到答案。"

/-- `new` extends `old` by appending: the agent state only ever grows. -/
def Cot.stateGrows (old new : Cot.AgentState) : Prop :=
  (∃ t, new.thoughts = old.thoughts ++ t)
  ∧ (∃ t, new.observations = old.observations ++ t)
  ∧ (∃ t, new.actions = old.actions ++ t)

/-! ## Concrete instantiations used by witnesses and counterexamples -/

/-- A `json.loads` model that rejects everything (sufficient where the
parser is never consulted, or where a parse failure is wanted). -/
def jlReject : JsonFn := fun _ => .error "Expecting value: line 1 column 1 (char 0)"

/-- Action JSON body with an empty `tool_input`. -/
def bodyEmptyInput : String := "\x7b\"tool\": \"calculator\", \"tool_input\": \x7b\x7d\x7d"

/-- A completion carrying `bodyEmptyInput` in a fenced block. -/
def respEmptyInput : String := "```json\n" ++ bodyEmptyInput ++ "\n```"

/-- `json.loads` model for `bodyEmptyInput`. -/
def jlEmptyInput : JsonFn := fun s =>
  if s == bodyEmptyInput then
    .ok (.jObj [("tool", .jStr "calculator"), ("tool_input", .jObj [])])
  else .error "Expecting value: line 1 column 1 (char 0)"

/-- Action JSON body whose `tool_input` has a stray key `x`. -/
def bodyStrayKey : String := "\x7b\"tool\": \"calculator\", \"tool_input\": \x7b\"x\": 1\x7d\x7d"

/-- A completion carrying `bodyStrayKey` in a fenced block. -/
def respStrayKey : String := "```json\n" ++ bodyStrayKey ++ "\n```"

/-- `json.loads` model for `bodyStrayKey`. -/
def jlStrayKey : JsonFn := fun s =>
  if s == bodyStrayKey then
    .ok (.jObj [("tool", .jStr "calculator"), ("tool_input", .jObj [("x", .jNum 1)])])
  else .error "Expecting value: line 1 column 1 (char 0)"

/-- Action JSON body invoking the calculator on `2+2`. -/
def bodyCalc : String := "\x7b\"tool\": \"calculator\", \"tool_input\": \x7b\"expression\": \"2+2\"\x7d\x7d"

/-- A completion carrying `bodyCalc` in a fenced block. -/
def respCalc : String := "```json\n" ++ bodyCalc ++ "\n```"

/-- `json.loads` model for `bodyCalc`. -/
def jlCalc : JsonFn := fun s =>
  if s == bodyCalc then
    .ok (.jObj [("tool", .jStr "calculator"),
      ("tool_input", .jObj [("expression", .jStr "2+2")])])
  else .error "Expecting value: line 1 column 1 (char 0)"

/-- Model responses: first an action round, then a final answer. -/
def llmCalcThenDone : Nat → String := fun k =>
  if k == 0 then respCalc else "最终答案：done"

/-- The reassembled argument JSON of the streamed-fragment example. -/
def fullArgsJson : String := "\x7b\"expression\":\"3+3\"\x7d"

/-- First tool-call delta of the example: establishes id and name and
carries the first argument fragment. -/
def deltaA : FC.ToolCallDelta :=
  { index := 0, id := some "call_1", fname := some "calculator",
    arguments := some "\x7b\"expression\"" }

/-- Second tool-call delta at the same index: argument fragment only. -/
def deltaB : FC.ToolCallDelta :=
  { index := 0, id := none, fname := none, arguments := some ":\"3+3\"\x7d" }

/-- The two-chunk stream delivering the two fragments. -/
def chunksAB : List FC.ChunkDelta :=
  [{ content := none, tool_calls := [deltaA] },
   { content := none, tool_calls := [deltaB] }]

/-- `json.loads` model for the reassembled `fullArgsJson`. -/
def jlFullArgs : JsonFn := fun s =>
  if s == fullArgsJson then .ok (.jObj [("expression", .jStr "3+3")])
  else .error "Expecting value: line 1 column 1 (char 0)"

/-- A pre-populated agent state (as left behind by an earlier `run`). -/
def stOld : Cot.AgentState :=
  { thoughts := [{ thought := "旧想法", reasoning := "", plan := [] }],
    final_answer := some "prev" }

/-- The state `stOld` becomes after a run answering `42` immediately. -/
def stOldAfter : Cot.AgentState :=
  { thoughts := [{ thought := "旧想法", reasoning := "", plan := [] }],
    final_answer := some "42" }

/-! ## String-matching lemmas -/

/-- The empty pattern matches everywhere. -/
theorem startsWithSeq_nil (s : List Char) : startsWithSeq s [] = true := by
  cases s <;> rfl

/-- A list starts with itself (prefixed to anything). -/
theorem startsWithSeq_append_self (a b : List Char) : startsWithSeq (a ++ b) a = true := by
  induction a with
  | nil => simpa using startsWithSeq_nil b
  | cons c t ih => simp [startsWithSeq, List.append_eq, ih]

/-- `startsWithSeq` only inspects the first `pat.length` characters. -/
theorem startsWithSeq_append_left (pat s t : List Char) (h : pat.length ≤ s.length) :
    startsWithSeq (s ++ t) pat = startsWithSeq s pat := by
  induction pat generalizing s with
  | nil => rw [startsWithSeq_nil, startsWithSeq_nil]
  | cons p ps ih =>
    cases s with
    | nil => simp at h
    | cons c s' =>
      simp only [List.cons_append, startsWithSeq, List.append_eq]
      rw [ih s' (by simpa using h)]

/-- A find starting at a match returns the start index. -/
theorem pyFindAux_of_startsWith (pat s : List Char) (i : Nat)
    (h : startsWithSeq s pat = true) : pyFindAux pat s i = some i := by
  cases s <;> simp [pyFindAux, h]

/-- A pattern absent from `s` is not found. -/
theorem pyFindAux_of_not_contains (pat s : List Char) (i : Nat)
    (h : containsSeq pat s = false) : pyFindAux pat s i = none := by
  induction s generalizing i with
  | nil =>
    simp only [containsSeq] at h
    simp [pyFindAux, h]
  | cons c t ih =>
    simp only [containsSeq, Bool.or_eq_false_iff] at h
    simp [pyFindAux, h.1, ih (i + 1) h.2]

/-- First occurrence of `pat` in `a ++ pat ++ r` is at index `a.length`,
provided no occurrence starts inside `a` (expressed as: `pat` does not
occur in `a ++ pat.dropLast`, the region every earlier occurrence would
lie in). -/
theorem pyFindAux_boundary (pat a r : List Char) (i : Nat) (hne : pat ≠ [])
    (h : containsSeq pat (a ++ pat.dropLast) = false) :
    pyFindAux pat (a ++ (pat ++ r)) i = some (i + a.length) := by
  induction a generalizing i with
  | nil =>
    simp [pyFindAux_of_startsWith pat (pat ++ r) i (startsWithSeq_append_self pat r)]
  | cons c a' ih =>
    have hlast := List.dropLast_append_getLast hne
    have hsplit : pat ++ r = pat.dropLast ++ ([pat.getLast hne] ++ r) := by
      rw [← List.append_assoc, hlast]
    have hsw : startsWithSeq (c :: (a' ++ (pat ++ r))) pat = false := by
      have hrw : c :: (a' ++ (pat ++ r))
          = (c :: (a' ++ pat.dropLast)) ++ ([pat.getLast hne] ++ r) := by
        rw [hsplit]
        simp [List.cons_append, List.append_assoc]
      rw [hrw, startsWithSeq_append_left]
      · simp only [containsSeq, Bool.or_eq_false_iff, List.cons_append] at h
        exact h.1
      · have h1 := List.length_dropLast pat
        have hp : 1 ≤ pat.length := by
          cases pat with
          | nil => exact absurd rfl hne
          | cons x xs => simp
        simp only [List.length_cons, List.length_append]
        omega
    simp only [List.cons_append, containsSeq, Bool.or_eq_false_iff] at h
    simp only [List.cons_append, pyFindAux, List.append_eq, hsw, Bool.false_eq_true, if_false]
    rw [ih (i + 1) h.2]
    congr 1
    simp only [List.length_cons]
    omega

/-- A pattern occurs in any text that embeds it. -/
theorem containsSeq_append_self (pat a b : List Char) :
    containsSeq pat (a ++ (pat ++ b)) = true := by
  induction a with
  | nil =>
    cases hp : pat ++ b with
    | nil => simp_all [containsSeq, startsWithSeq_nil]
    | cons c t =>
      simp only [List.nil_append, hp, containsSeq]
      rw [← hp, startsWithSeq_append_self]
      simp
  | cons c a' ih =>
    simp only [List.cons_append, containsSeq, List.append_eq, ih, Bool.or_true]

/-- String append acts as list append on the underlying data. -/
theorem strData_append (a b : String) : (a ++ b).data = a.data ++ b.data := by
  cases a
  cases b
  rfl

/-- The empty string is a left identity for append. -/
theorem str_empty_append (s : String) : "" ++ s = s := by
  cases s
  rfl

/-! ## Extraction lemmas -/

/-- Without the marker, the final-answer extractor returns nothing. -/
theorem extractFinalAnswer_of_no_marker (text : String)
    (h : strContains text "最终答案：" = false) :
    Cot.extractFinalAnswer text = none := by
  unfold Cot.extractFinalAnswer
  rw [pyFindAux_of_not_contains _ _ _ h]

/-- With the marker present (and no earlier overlap, the hypothesis),
the extractor returns the stripped text after the marker. -/
theorem extractFinalAnswer_marker (pre x : String)
    (h : strContains (pre ++ "最终答案") "最终答案：" = false) :
    Cot.extractFinalAnswer (pre ++ "最终答案：" ++ x) = some (stripStr x) := by
  have hpat : ("最终答案：".data).dropLast = "最终答案".data := rfl
  have hdata : (pre ++ "最终答案：" ++ x).data
      = pre.data ++ ("最终答案：".data ++ x.data) := by
    simp [strData_append, List.append_assoc]
  have hcontains : containsSeq "最终答案：".data
      (pre.data ++ ("最终答案：".data).dropLast) = false := by
    rw [hpat]
    have := h
    unfold strContains at this
    rwa [strData_append] at this
  unfold Cot.extractFinalAnswer
  rw [hdata, pyFindAux_boundary _ _ _ _ (by decide) hcontains]
  dsimp only
  have hdrop : (pre.data ++ ("最终答案：".data ++ x.data)).drop (0 + pre.data.length + 5)
      = x.data := by
    rw [← List.append_assoc]
    have hl : (pre.data ++ "最终答案：".data).length = 0 + pre.data.length + 5 := by
      simp [List.length_append]
    rw [← hl, List.drop_left]
  rw [hdrop]
  rfl

/-- Without the fence opener, the action extractor returns nothing. -/
theorem extractAction_of_no_fence (jl : JsonFn) (text : String)
    (h : strContains text "```json\n" = false) :
    Cot.extractAction jl text = none := by
  unfold Cot.extractAction
  rw [pyFindAux_of_not_contains _ _ _ h]

/-- The action extractor honours exactly the first fenced block: the
result is `json.loads` of the stripped first-block body (converted to
`none` on a parse error), whatever follows the closing fence.  The
hypothesis rules out a closing fence starting inside the body. -/
theorem extractAction_first_block (jl : JsonFn) (b1 mid : String)
    (h : strContains (b1 ++ "\n``") "\n```" = false) :
    Cot.extractAction jl ("```json\n" ++ b1 ++ "\n```" ++ mid)
      = (match jl (stripStr b1) with | .ok v => some v | .error _ => none) := by
  have hpat : ("\n```".data).dropLast = "\n``".data := rfl
  have hdata : ("```json\n" ++ b1 ++ "\n```" ++ mid).data
      = "```json\n".data ++ (b1.data ++ ("\n```".data ++ mid.data)) := by
    simp [strData_append, List.append_assoc]
  have hcontains : containsSeq "\n```".data
      (b1.data ++ ("\n```".data).dropLast) = false := by
    rw [hpat]
    have := h
    unfold strContains at this
    rwa [strData_append] at this
  unfold Cot.extractAction
  rw [hdata,
    pyFindAux_of_startsWith _ _ _ (startsWithSeq_append_self "```json\n".data _)]
  dsimp only
  have h8 : ("```json\n".data).length = 8 := rfl
  have hdrop8 : ("```json\n".data ++ (b1.data ++ ("\n```".data ++ mid.data))).drop (0 + 8)
      = b1.data ++ ("\n```".data ++ mid.data) := by
    rw [show (0 : Nat) + 8 = ("```json\n".data).length from rfl, List.drop_left]
  rw [hdrop8, pyFindAux_boundary _ _ _ _ (by decide) hcontains]
  dsimp only
  have hslice :
      ((("```json\n".data ++ (b1.data ++ ("\n```".data ++ mid.data))).take
        (0 + 8 + (0 + b1.data.length))).drop (0 + 8)) = b1.data := by
    rw [show "```json\n".data ++ (b1.data ++ ("\n```".data ++ mid.data))
        = ("```json\n".data ++ b1.data) ++ ("\n```".data ++ mid.data) from by
      rw [List.append_assoc]]
    have e2 : ("```json\n".data ++ b1.data).length = 0 + 8 + (0 + b1.data.length) := by
      rw [List.length_append, h8]
      omega
    rw [← e2, List.take_left]
    rw [show (0 : Nat) + 8 = ("```json\n".data).length from rfl, List.drop_left]
  rw [hslice]
  rfl

/-! ## Round- and loop-level lemmas for the free-text variant -/

/-- State growth is reflexive. -/
theorem stateGrows_refl (st : Cot.AgentState) : Cot.stateGrows st st :=
  ⟨⟨[], by simp⟩, ⟨[], by simp⟩, ⟨[], by simp⟩⟩

/-- State growth is transitive. -/
theorem stateGrows_trans {a b c : Cot.AgentState}
    (h1 : Cot.stateGrows a b) (h2 : Cot.stateGrows b c) : Cot.stateGrows a c := by
  obtain ⟨⟨t1, e1⟩, ⟨t2, e2⟩, ⟨t3, e3⟩⟩ := h1
  obtain ⟨⟨u1, f1⟩, ⟨u2, f2⟩, ⟨u3, f3⟩⟩ := h2
  exact ⟨⟨t1 ++ u1, by rw [f1, e1, List.append_assoc]⟩,
    ⟨t2 ++ u2, by rw [f2, e2, List.append_assoc]⟩,
    ⟨t3 ++ u3, by rw [f3, e3, List.append_assoc]⟩⟩

/-- The action phase never terminates the loop successfully. -/
theorem cotActionPhase_not_answered (jl : JsonFn) (tools : List Cot.BaseTool)
    (response : String) (messages : List Cot.Msg) (st : Cot.AgentState) :
    (Cot.cotActionPhase jl tools response messages st).isAnswered = false := by
  unfold Cot.cotActionPhase
  repeat' split
  all_goals rfl

/-- Recording a thought grows the state. -/
theorem recordThought_grows (response : String) (st : Cot.AgentState) :
    Cot.stateGrows st (Cot.recordThought response st) := by
  unfold Cot.recordThought
  split
  · exact stateGrows_refl _
  · exact ⟨⟨_, rfl⟩, ⟨[], by simp⟩, ⟨[], by simp⟩⟩

/-- Recording a thought preserves the final answer. -/
theorem recordThought_final (response : String) (st : Cot.AgentState) :
    (Cot.recordThought response st).final_answer = st.final_answer := by
  unfold Cot.recordThought
  split <;> rfl

/-- Without a truthy final answer, a round never terminates the loop
successfully. -/
theorem cotRound_not_answered (jl : JsonFn) (tools : List Cot.BaseTool)
    (response : String) (messages : List Cot.Msg) (st : Cot.AgentState)
    (h : optStrTruthy (Cot.extractFinalAnswer response) = false) :
    (Cot.cotRound jl tools response messages st).isAnswered = false := by
  unfold Cot.cotRound
  cases hfa : Cot.extractFinalAnswer response with
  | none => exact cotActionPhase_not_answered ..
  | some a =>
    have ha : (a == "") = true := by
      rw [hfa] at h
      simpa [optStrTruthy] using h
    simp only [ha, if_true]
    exact cotActionPhase_not_answered ..

/-- Without an extracted action, the action phase continues with the
message log unchanged and the state unchanged. -/
theorem cotActionPhase_of_no_action (jl : JsonFn) (tools : List Cot.BaseTool)
    (response : String) (messages : List Cot.Msg) (st : Cot.AgentState)
    (h : Cot.extractAction jl response = none) :
    Cot.cotActionPhase jl tools response messages st = .next messages st := by
  unfold Cot.cotActionPhase
  rw [h]

/-- A `.next` outcome of the action phase only grows the state and
never sets the final answer. -/
theorem cotActionPhase_next_grows (jl : JsonFn) (tools : List Cot.BaseTool)
    (response : String) (messages m' : List Cot.Msg) (st s' : Cot.AgentState)
    (h : Cot.cotActionPhase jl tools response messages st = .next m' s') :
    Cot.stateGrows st s' ∧ s'.final_answer = st.final_answer := by
  unfold Cot.cotActionPhase at h
  split at h
  · cases h
    exact ⟨stateGrows_refl _, rfl⟩
  · split at h
    · cases h
      exact ⟨stateGrows_refl _, rfl⟩
    · split at h
      · split at h
        · split at h
          · split at h
            · cases h
              refine ⟨⟨⟨[], by simp⟩, ⟨_, rfl⟩, ⟨_, rfl⟩⟩, rfl⟩
            · cases h
          · cases h
        · cases h
      · cases h

/-- An `.answered` outcome of a round grows the state and records the
answer. -/
theorem cotRound_answered_grows (jl : JsonFn) (tools : List Cot.BaseTool)
    (response : String) (messages : List Cot.Msg) (st s' : Cot.AgentState) (a : String)
    (h : Cot.cotRound jl tools response messages st = .answered a s') :
    Cot.stateGrows st s' ∧ s'.final_answer = some a := by
  unfold Cot.cotRound at h
  split at h
  · rename_i a' hfa
    split at h
    · have := cotActionPhase_not_answered jl tools response messages
        (Cot.recordThought response st)
      rw [h] at this
      cases this
    · cases h
      refine ⟨stateGrows_trans (recordThought_grows response st) ?_, rfl⟩
      exact ⟨⟨[], by simp⟩, ⟨[], by simp⟩, ⟨[], by simp⟩⟩
  · have := cotActionPhase_not_answered jl tools response messages
      (Cot.recordThought response st)
    rw [h] at this
    cases this

/-- A `.next` outcome of a round grows the state and preserves the
final answer. -/
theorem cotRound_next_grows (jl : JsonFn) (tools : List Cot.BaseTool)
    (response : String) (messages m' : List Cot.Msg) (st s' : Cot.AgentState)
    (h : Cot.cotRound jl tools response messages st = .next m' s') :
    Cot.stateGrows st s' ∧ s'.final_answer = st.final_answer := by
  unfold Cot.cotRound at h
  have step : Cot.cotActionPhase jl tools response messages
        (Cot.recordThought response st) = .next m' s' →
      Cot.stateGrows st s' ∧ s'.final_answer = st.final_answer := by
    intro hh
    have := cotActionPhase_next_grows _ _ _ _ _ _ _ hh
    exact ⟨stateGrows_trans (recordThought_grows ..) this.1,
      this.2.trans (recordThought_final ..)⟩
  split at h
  · split at h
    · exact step h
    · cases h
  · exact step h

/-- A completed run only grows the state, and its final answer is
either the inherited one or the returned answer. -/
theorem cotLoop_grows (jl : JsonFn) (tools : List Cot.BaseTool) (llm : Nat → String) :
    ∀ (fuel calls : Nat) (messages : List Cot.Msg) (st : Cot.AgentState)
      (ret : String) (m : List Cot.Msg) (s : Cot.AgentState) (c : Nat),
    Cot.cotLoop jl tools llm fuel calls messages st = .ok ret m s c →
    Cot.stateGrows st s ∧ (s.final_answer = st.final_answer ∨ s.final_answer = some ret) := by
  intro fuel
  induction fuel with
  | zero =>
    intro calls messages st ret m s c h
    unfold Cot.cotLoop at h
    cases h
    exact ⟨stateGrows_refl _, Or.inl rfl⟩
  | succ fuel ih =>
    intro calls messages st ret m s c h
    unfold Cot.cotLoop at h
    cases hR : Cot.cotRound jl tools (llm calls) messages st with
    | answered a st' =>
      simp only [hR] at h
      cases h
      have := cotRound_answered_grows _ _ _ _ _ _ _ hR
      exact ⟨this.1, Or.inr this.2⟩
    | next m' st' =>
      simp only [hR] at h
      have h2 := ih (calls + 1) m' st' ret m s c h
      have h1 := cotRound_next_grows _ _ _ _ _ _ _ hR
      refine ⟨stateGrows_trans h1.1 h2.1, ?_⟩
      cases h2.2 with
      | inl e => exact Or.inl (e.trans h1.2)
      | inr e => exact Or.inr e
    | raised e st' =>
      simp only [hR] at h
      cases h

/-- Under responses with no truthy final answer, the loop either runs
its full budget and returns the sentinel (the call counter advancing by
exactly the fuel) or raises. -/
theorem cotLoop_exhausts (jl : JsonFn) (tools : List Cot.BaseTool) (llm : Nat → String)
    (h1 : ∀ k, optStrTruthy (Cot.extractFinalAnswer (llm k)) = false) :
    ∀ (fuel calls : Nat) (messages : List Cot.Msg) (st : Cot.AgentState),
      (∃ m s, Cot.cotLoop jl tools llm fuel calls messages st
        = .ok Cot.sentinel m s (calls + fuel))
      ∨ (∃ e s c, Cot.cotLoop jl tools llm fuel calls messages st = .exc e s c) := by
  intro fuel
  induction fuel with
  | zero =>
    intro calls messages st
    left
    exact ⟨messages, st, rfl⟩
  | succ fuel ih =>
    intro calls messages st
    have hna := cotRound_not_answered jl tools (llm calls) messages st (h1 calls)
    cases hR : Cot.cotRound jl tools (llm calls) messages st with
    | answered a st' =>
      rw [hR] at hna
      cases hna
    | next m' st' =>
      cases ih (calls + 1) m' st' with
      | inl hh =>
        obtain ⟨m, s, e⟩ := hh
        left
        refine ⟨m, s, ?_⟩
        unfold Cot.cotLoop
        simp only [hR]
        rw [show calls + (fuel + 1) = calls + 1 + fuel from by omega]
        exact e
      | inr hh =>
        obtain ⟨ex, s, c, e⟩ := hh
        right
        refine ⟨ex, s, c, ?_⟩
        unfold Cot.cotLoop
        simp only [hR]
        exact e
    | raised e st' =>
      right
      refine ⟨e, st', calls + 1, ?_⟩
      unfold Cot.cotLoop
      simp only [hR]

/-! ## Dispatch lemmas -/

/-- Unknown tool names fall through the free-text dispatch loop to the
sentinel error string. -/
theorem runTool_unknown (tools : List Cot.BaseTool) (tool_name : String)
    (args : List (String × JVal)) (h : ∀ t ∈ tools, t.name ≠ tool_name) :
    Cot.runTool tools tool_name args = .ok ("错误：找不到工具 '" ++ tool_name ++ "'") := by
  induction tools with
  | nil => rfl
  | cons t rest ih =>
    unfold Cot.runTool
    have hb : (t.name == tool_name) = false := beq_eq_false_iff_ne.mpr (h t (by simp))
    simp only [hb, Bool.false_eq_true, if_false]
    exact ih (fun u hu => h u (by simp [hu]))

/-- Unknown tool names fall through the structured dispatch loop to the
sentinel error string. -/
theorem executeTool_unknown (tools : List FC.Tool) (tool_name : String) (arguments : JVal)
    (h : ∀ t ∈ tools, t.name ≠ tool_name) :
    FC.executeTool tools (some tool_name) arguments
      = .ok ("错误：找不到工具 '" ++ tool_name ++ "'") := by
  induction tools with
  | nil => rfl
  | cons t rest ih =>
    unfold FC.executeTool
    have hb : (t.name == tool_name) = false := beq_eq_false_iff_ne.mpr (h t (by simp))
    simp only [hb, Bool.false_eq_true, if_false]
    exact ih (fun u hu => h u (by simp [hu]))

/-- A string contains its own suffix. -/
theorem strContains_suffix (a b : String) : strContains (a ++ b) b = true := by
  unfold strContains
  rw [strData_append]
  have := containsSeq_append_self b.data a.data []
  rwa [List.append_nil] at this

/-- A string contains any embedded middle. -/
theorem strContains_embed (pre name suf : String) :
    strContains (pre ++ name ++ suf) name = true := by
  unfold strContains
  rw [strData_append, strData_append, List.append_assoc]
  exact containsSeq_append_self name.data pre.data suf.data

/-- Dispatching the calculator with a sole `expression` argument binds
and runs the tool body. -/
theorem runTool_calculator (ev : EvFn) (v : JVal) :
    Cot.runTool (Cot.defaultTools ev) "calculator" [("expression", v)]
      = .ok (calculatorBody ev v) := rfl

/-- Dispatching the search tool with a sole `query` argument binds and
runs the tool body. -/
theorem runTool_search (ev : EvFn) (v : JVal) :
    Cot.runTool (Cot.defaultTools ev) "search" [("query", v)] = .ok (searchBody v) := rfl

/-! ## Claim theorems -/

/-- C3: for every tool name not equal (case-sensitively) to the name of
any configured tool, and for every argument mapping, dispatch in both
variants returns (never throws) an error string containing that tool
name. -/
theorem claim_C3 (tools : List Cot.BaseTool) (ftools : List FC.Tool)
    (tool_name : String) (args : List (String × JVal)) (jargs : JVal)
    (h1 : ∀ t ∈ tools, t.name ≠ tool_name) (h2 : ∀ t ∈ ftools, t.name ≠ tool_name) :
    Cot.runTool tools tool_name args = .ok ("错误：找不到工具 '" ++ tool_name ++ "'")
    ∧ FC.executeTool ftools (some tool_name) jargs
        = .ok ("错误：找不到工具 '" ++ tool_name ++ "'")
    ∧ strContains ("错误：找不到工具 '" ++ tool_name ++ "'") tool_name = true :=
  ⟨runTool_unknown tools tool_name args h1,
   executeTool_unknown ftools tool_name jargs h2,
   strContains_embed "错误：找不到工具 '" tool_name "'"⟩

/-- Witness for C3 at the default tool sets and the unknown name
`weather`. -/
theorem claim_C3_witness :
    Cot.runTool (Cot.defaultTools pyEvalModel) "weather" [] = .ok "错误：找不到工具 'weather'"
    ∧ FC.executeTool (FC.defaultTools pyEvalModel) (some "weather") (.jObj [])
        = .ok "错误：找不到工具 'weather'"
    ∧ strContains "错误：找不到工具 'weather'" "weather" = true :=
  claim_C3 (Cot.defaultTools pyEvalModel) (FC.defaultTools pyEvalModel) "weather" []
    (.jObj []) (by decide) (by decide)

/-- C4: for every expression string, Calculator invocation returns a
string and never raises (the dispatch result is always `.ok`): success
yields a result string containing the value, failure yields an error
string embedding the exception message; concretely `2+2` yields a
string containing `4`, and `__import__('os')` yields the `NameError`
string (the emptied namespaces blocking the builtin lookup). -/
theorem claim_C4 :
    (∀ (ev : EvFn) (e_ : String),
      (∀ v, ev e_ = .ok v →
        Cot.runTool (Cot.defaultTools ev) "calculator" [("expression", .jStr e_)]
          = .ok ("计算结果: " ++ pyStr v)
        ∧ strContains ("计算结果: " ++ pyStr v) (pyStr v) = true)
      ∧ (∀ m, ev e_ = .error m →
        Cot.runTool (Cot.defaultTools ev) "calculator" [("expression", .jStr e_)]
          = .ok ("计算错误: " ++ m)
        ∧ strContains ("计算错误: " ++ m) m = true))
    ∧ Cot.runTool (Cot.defaultTools pyEvalModel) "calculator" [("expression", .jStr "2+2")]
        = .ok "计算结果: 4"
    ∧ strContains "计算结果: 4" "4" = true
    ∧ Cot.runTool (Cot.defaultTools pyEvalModel) "calculator"
        [("expression", .jStr "__import__('os')")]
        = .ok "计算错误: name '__import__' is not defined" := by
  refine ⟨fun ev e_ => ⟨fun v hv => ⟨?_, strContains_suffix _ _⟩,
    fun m hm => ⟨?_, strContains_suffix _ _⟩⟩, rfl, rfl, rfl⟩
  · rw [runTool_calculator]
    unfold calculatorBody
    dsimp only
    rw [hv]
  · rw [runTool_calculator]
    unfold calculatorBody
    dsimp only
    rw [hm]

/-- Witness for C4 at the concrete `eval` model and `2+2`. -/
theorem claim_C4_witness :
    pyEvalModel "2+2" = .ok (.jNum 4)
    ∧ Cot.runTool (Cot.defaultTools pyEvalModel) "calculator" [("expression", .jStr "2+2")]
        = .ok ("计算结果: " ++ pyStr (.jNum 4))
    ∧ strContains ("计算结果: " ++ pyStr (.jNum 4)) (pyStr (.jNum 4)) = true :=
  ⟨rfl, (claim_C4.1 pyEvalModel "2+2").1 (.jNum 4) rfl⟩

/-- C2 as frozen is falsified by the unhandled-`TypeError` path: the
single completion below never contains a final answer, yet the run
raises after one model call instead of performing 5 rounds and
returning the exhaustion message (the action's `tool_input` carries a
stray key `x`, so `tool.run(**tool_input)` raises). -/
theorem claim_C2_counterexample :
    Cot.extractFinalAnswer respStrayKey = none
    ∧ Cot.run jlStrayKey (Cot.defaultTools pyEvalModel) (fun _ => respStrayKey) "q" {}
        = .exc (.typeError "run() got an unexpected keyword argument 'x'")
          { actions := [{ tool := "calculator", tool_input := [("x", .jNum 1)] }] } 1 :=
  ⟨rfl, rfl⟩

/-- C2 amended: if no completion yields a truthy final answer and the
run does not raise, the loop performs exactly 5 rounds (5 model calls)
and returns the fixed exhaustion message. -/
theorem claim_C2_amended (jl : JsonFn) (tools : List Cot.BaseTool) (llm : Nat → String)
    (query : String) (st : Cot.AgentState)
    (h1 : ∀ k, optStrTruthy (Cot.extractFinalAnswer (llm k)) = false)
    (h2 : (Cot.run jl tools llm query st).isExc = false) :
    ∃ m s, Cot.run jl tools llm query st = .ok Cot.sentinel m s 5 := by
  cases cotLoop_exhausts jl tools llm h1 Cot.maxIterations 0
      [{ role := "system", content := Cot.getSystemPrompt tools },
       { role := "user", content := query }] st with
  | inl hh =>
    obtain ⟨m, s, e⟩ := hh
    exact ⟨m, s, e⟩
  | inr hh =>
    obtain ⟨ex, s, c, e⟩ := hh
    exfalso
    unfold Cot.run at h2
    rw [e] at h2
    simp [Cot.CotResult.isExc] at h2

/-- Witness for C2 (amended) at a constant markerless completion. -/
theorem claim_C2_witness :
    ∃ m s, Cot.run jlReject (Cot.defaultTools pyEvalModel) (fun _ => "work") "q" {}
      = .ok Cot.sentinel m s 5 :=
  claim_C2_amended jlReject (Cot.defaultTools pyEvalModel) (fun _ => "work") "q" {}
    (fun _ => rfl) rfl

/-- C5 as frozen is falsified by a completion that contains the marker
with nothing after it: extraction returns the empty (falsy) string, so
the loop does not terminate that round — it runs all 5 rounds and
returns the exhaustion sentinel rather than the trimmed text after the
marker. -/
theorem claim_C5_counterexample :
    strContains "最终答案：" "最终答案：" = true
    ∧ Cot.extractFinalAnswer "最终答案：" = some ""
    ∧ Cot.run jlReject (Cot.defaultTools pyEvalModel) (fun _ => "最终答案：") "q" {}
        = .ok Cot.sentinel
            [{ role := "system", content := Cot.getSystemPrompt (Cot.defaultTools pyEvalModel) },
             { role := "user", content := "q" }] {} 5 :=
  ⟨rfl, rfl, rfl⟩

/-- C5 amended: extraction returns nothing when the marker is absent;
with the marker present it returns the trimmed text after the first
occurrence; and the final-answer check precedes and preempts action
extraction whenever that trimmed text is nonempty (a marker with an
empty trimmed remainder is treated as no final answer). -/
theorem claim_C5_amended :
    (∀ text : String, strContains text "最终答案：" = false →
      Cot.extractFinalAnswer text = none)
    ∧ (∀ pre x : String, strContains (pre ++ "最终答案") "最终答案：" = false →
      Cot.extractFinalAnswer (pre ++ "最终答案：" ++ x) = some (stripStr x))
    ∧ (∀ (jl : JsonFn) (tools : List Cot.BaseTool) (response : String)
        (messages : List Cot.Msg) (st : Cot.AgentState) (a : String),
        Cot.extractFinalAnswer response = some a → a ≠ "" →
        Cot.cotRound jl tools response messages st
          = .answered a { Cot.recordThought response st with final_answer := some a }) := by
  refine ⟨extractFinalAnswer_of_no_marker, extractFinalAnswer_marker,
    fun jl tools response messages st a hfa ha => ?_⟩
  unfold Cot.cotRound
  simp only [hfa]
  rw [if_neg (by simp [beq_eq_false_iff_ne.mpr ha])]

/-- Witness for C5 (amended): a marker embedded mid-text extracts the
trimmed remainder, and a nonempty answer terminates the round. -/
theorem claim_C5_witness :
    Cot.extractFinalAnswer ("回答如下。" ++ "最终答案：" ++ " X ") = some (stripStr " X ")
    ∧ Cot.cotRound jlReject (Cot.defaultTools pyEvalModel) "最终答案：42" [] {}
        = .answered "42"
            { Cot.recordThought "最终答案：42" {} with final_answer := some "42" } :=
  ⟨claim_C5_amended.2.1 "回答如下。" " X " (by decide),
   claim_C5_amended.2.2 jlReject (Cot.defaultTools pyEvalModel) "最终答案：42" [] {} "42"
     rfl (by decide)⟩

/-- C8: action extraction honours only the first fenced JSON block, and
a malformed (parse-failing) or absent block yields no action, in which
case the round continues without appending any message to the log. -/
theorem claim_C8 :
    (∀ (jl : JsonFn) (text : String), strContains text "```json\n" = false →
      Cot.extractAction jl text = none)
    ∧ (∀ (jl : JsonFn) (b1 mid : String), strContains (b1 ++ "\n``") "\n```" = false →
      Cot.extractAction jl ("```json\n" ++ b1 ++ "\n```" ++ mid)
        = (match jl (stripStr b1) with | .ok v => some v | .error _ => none))
    ∧ (∀ (jl : JsonFn) (tools : List Cot.BaseTool) (response : String)
        (messages : List Cot.Msg) (st : Cot.AgentState),
        Cot.extractAction jl response = none →
        optStrTruthy (Cot.extractFinalAnswer response) = false →
        Cot.cotRound jl tools response messages st
          = .next messages (Cot.recordThought response st)) := by
  refine ⟨extractAction_of_no_fence, extractAction_first_block,
    fun jl tools response messages st hact hfa => ?_⟩
  unfold Cot.cotRound
  cases hfa2 : Cot.extractFinalAnswer response with
  | none => exact cotActionPhase_of_no_action _ _ _ _ _ hact
  | some a =>
    have ha : (a == "") = true := by
      rw [hfa2] at hfa
      simpa [optStrTruthy] using hfa
    simp only [ha, if_true]
    exact cotActionPhase_of_no_action _ _ _ _ _ hact

/-- Witness for C8: an absent fence, a first-of-two-blocks extraction,
a malformed block, and an actionless round leaving the log unchanged. -/
theorem claim_C8_witness :
    Cot.extractAction jlReject "no action here" = none
    ∧ Cot.extractAction jlCalc
        ("```json\n" ++ bodyCalc ++ "\n```" ++ "\n再来一个：\n```json\n\x7b\"tool\": \"search\"\x7d\n```")
        = some (.jObj [("tool", .jStr "calculator"),
            ("tool_input", .jObj [("expression", .jStr "2+2")])])
    ∧ Cot.extractAction jlReject ("```json\n" ++ "not json at all" ++ "\n```" ++ "") = none
    ∧ Cot.cotRound jlReject (Cot.defaultTools pyEvalModel) "oops ```json\n not json" [] {}
        = .next [] (Cot.recordThought "oops ```json\n not json" {}) := by
  refine ⟨claim_C8.1 jlReject "no action here" (by decide), ?_, ?_,
    claim_C8.2.2 jlReject (Cot.defaultTools pyEvalModel) "oops ```json\n not json" [] {}
      rfl rfl⟩
  · rw [claim_C8.2.1 jlCalc bodyCalc _ (by decide)]
    rfl
  · rw [claim_C8.2.1 jlReject "not json at all" "" (by decide)]
    rfl

/-- The action phase on a dispatchable action appends exactly the
assistant text and then the framed observation, in that order. -/
theorem cotActionPhase_success (jl : JsonFn) (tools : List Cot.BaseTool)
    (response : String) (messages : List Cot.Msg) (st : Cot.AgentState)
    (fields : List (String × JVal)) (tool_name : String)
    (tool_input : List (String × JVal)) (observation : String)
    (h2 : Cot.extractAction jl response = some (.jObj fields))
    (h3 : fields ≠ [])
    (h4 : listLookup fields "tool" = some (.jStr tool_name))
    (h5 : (listLookup fields "tool_input").getD (.jObj []) = .jObj tool_input)
    (h6 : Cot.runTool tools tool_name tool_input = .ok observation) :
    Cot.cotActionPhase jl tools response messages st
      = .next (messages ++ [{ role := "assistant", content := response },
                            { role := "user", content := "观察：" ++ observation }])
          { st with
            actions := st.actions ++ [{ tool := tool_name, tool_input := tool_input }],
            observations := st.observations ++
              [{ content := observation,
                 tool_calls := some [{ name := tool_name, arguments := tool_input }] }] } := by
  unfold Cot.cotActionPhase
  rw [h2]
  have htr : jTruthy (.jObj fields) = true := by
    cases fields with
    | nil => exact absurd rfl h3
    | cons f fs => rfl
  dsimp only
  rw [if_neg (by simp [htr])]
  rw [h4]
  dsimp only
  rw [h5]
  dsimp only
  rw [h6]

/-- C9 amended: in every free-text round where an action is extracted
and dispatched successfully (and no truthy final answer was found), the
loop appends, in this order, first the raw assistant text as an
assistant-role message and then the tool's result as a user-role
message framed with the observation marker — and these are the only
messages appended that round. -/
theorem claim_C9_amended (jl : JsonFn) (tools : List Cot.BaseTool) (response : String)
    (messages : List Cot.Msg) (st : Cot.AgentState) (fields : List (String × JVal))
    (tool_name : String) (tool_input : List (String × JVal)) (observation : String)
    (h1 : optStrTruthy (Cot.extractFinalAnswer response) = false)
    (h2 : Cot.extractAction jl response = some (.jObj fields))
    (h3 : fields ≠ [])
    (h4 : listLookup fields "tool" = some (.jStr tool_name))
    (h5 : (listLookup fields "tool_input").getD (.jObj []) = .jObj tool_input)
    (h6 : Cot.runTool tools tool_name tool_input = .ok observation) :
    ∃ s', Cot.cotRound jl tools response messages st
      = .next (messages ++ [{ role := "assistant", content := response },
                            { role := "user", content := "观察：" ++ observation }]) s' := by
  have key := cotActionPhase_success jl tools response messages
    (Cot.recordThought response st) fields tool_name tool_input observation h2 h3 h4 h5 h6
  cases hfa2 : Cot.extractFinalAnswer response with
  | none =>
    exact ⟨_, by unfold Cot.cotRound; rw [hfa2]; exact key⟩
  | some a =>
    have ha : (a == "") = true := by
      rw [hfa2] at h1
      simpa [optStrTruthy] using h1
    exact ⟨_, by unfold Cot.cotRound; rw [hfa2]; dsimp only; rw [if_pos ha]; exact key⟩

/-- C9 as frozen is falsified by a concrete run: the round that
dispatches the calculator appends the assistant message first and the
observation user-message second, not the other way round. -/
theorem claim_C9_counterexample :
    Cot.run jlCalc (Cot.defaultTools pyEvalModel) llmCalcThenDone "q" {}
      = .ok "done"
          [{ role := "system", content := Cot.getSystemPrompt (Cot.defaultTools pyEvalModel) },
           { role := "user", content := "q" },
           { role := "assistant", content := respCalc },
           { role := "user", content := "观察：计算结果: 4" }]
          { observations :=
              [{ content := "计算结果: 4",
                 tool_calls :=
                   some [{ name := "calculator",
                           arguments := [("expression", .jStr "2+2")] }] }],
            actions :=
              [{ tool := "calculator",
                 tool_input := [("expression", .jStr "2+2")] }],
            final_answer := some "done" } 2
    ∧ ([{ role := "assistant", content := respCalc },
        { role := "user", content := "观察：计算结果: 4" }]
        ≠ ([{ role := "user", content := "观察：计算结果: 4" },
            { role := "assistant", content := respCalc }] : List Cot.Msg)) :=
  ⟨rfl, by decide⟩

/-- Witness for C9 (amended) at a concrete dispatching round. -/
theorem claim_C9_witness :
    ∃ s', Cot.cotRound jlCalc (Cot.defaultTools pyEvalModel) respCalc [] {}
      = .next ([] ++ [{ role := "assistant", content := respCalc },
                      { role := "user", content := "观察：" ++ "计算结果: 4" }]) s' :=
  claim_C9_amended jlCalc (Cot.defaultTools pyEvalModel) respCalc [] {}
    [("tool", .jStr "calculator"), ("tool_input", .jObj [("expression", .jStr "2+2")])]
    "calculator" [("expression", .jStr "2+2")] "计算结果: 4"
    rfl rfl (List.cons_ne_nil _ _) rfl rfl rfl

/-- C10: a completed free-text run never resets the accumulated agent
state — thoughts, observations and actions only grow, and the final
answer is the inherited one unless the run found a new answer. -/
theorem claim_C10 (jl : JsonFn) (tools : List Cot.BaseTool) (llm : Nat → String)
    (query : String) (st : Cot.AgentState) (ret : String) (m : List Cot.Msg)
    (s : Cot.AgentState) (c : Nat)
    (h : Cot.run jl tools llm query st = .ok ret m s c) :
    (∃ t, s.thoughts = st.thoughts ++ t)
    ∧ (∃ t, s.observations = st.observations ++ t)
    ∧ (∃ t, s.actions = st.actions ++ t)
    ∧ (s.final_answer = st.final_answer ∨ s.final_answer = some ret) := by
  have hg := cotLoop_grows jl tools llm Cot.maxIterations 0
    [{ role := "system", content := Cot.getSystemPrompt tools },
     { role := "user", content := query }] st ret m s c h
  exact ⟨hg.1.1, hg.1.2.1, hg.1.2.2, hg.2⟩

/-- Witness for C10: a run started with a pre-populated state keeps
its thoughts and overwrites only the final answer. -/
theorem claim_C10_witness :
    (∃ t, stOldAfter.thoughts = stOld.thoughts ++ t)
    ∧ (∃ t, stOldAfter.observations = stOld.observations ++ t)
    ∧ (∃ t, stOldAfter.actions = stOld.actions ++ t)
    ∧ (stOldAfter.final_answer = stOld.final_answer
        ∨ stOldAfter.final_answer = some "42") :=
  claim_C10 jlReject (Cot.defaultTools pyEvalModel) (fun _ => "最终答案：42") "q" stOld
    "42"
    [{ role := "system", content := Cot.getSystemPrompt (Cot.defaultTools pyEvalModel) },
     { role := "user", content := "q" }]
    stOldAfter 1 rfl

/-- C1 as frozen is falsified in the free-text variant: a dispatched
action whose argument mapping is empty makes `tool.run(**tool_input)`
raise `TypeError`, which nothing catches — the exception propagates out
of `run` after a single model call instead of becoming an error string. -/
theorem claim_C1_counterexample :
    Cot.run jlEmptyInput (Cot.defaultTools pyEvalModel) (fun _ => respEmptyInput)
        "计算 2 的平方" {}
      = .exc (.typeError "run() missing 1 required positional argument: 'expression'")
          { actions := [{ tool := "calculator", tool_input := [] }] } 1 := rfl

/-- C1 amended: in the structured variant every tool dispatch or
execution failure is caught and converted into a tool-role message
(each accumulated call yields exactly one such message — nothing
propagates); in the free-text variant dispatch returns a string result
for unknown tool names and for argument mappings that bind the
dispatched tool's declared parameter, but a mapping that fails keyword
binding raises out of the run. -/
theorem claim_C1_amended :
    (∀ (jl : JsonFn) (tools : List FC.Tool) (tcs : List FC.AccToolCall),
      ∃ f : FC.AccToolCall → String,
        FC.processToolCalls jl tools tcs
          = tcs.map (fun tc => FC.FMsg.mTool tc.id tc.name (f tc)))
    ∧ (∀ (ev : EvFn) (v : JVal),
        Cot.runTool (Cot.defaultTools ev) "calculator" [("expression", v)]
          = .ok (calculatorBody ev v))
    ∧ (∀ (ev : EvFn) (v : JVal),
        Cot.runTool (Cot.defaultTools ev) "search" [("query", v)] = .ok (searchBody v))
    ∧ (∀ (ev : EvFn) (tool_name : String) (args : List (String × JVal)),
        tool_name ≠ "calculator" → tool_name ≠ "search" →
        Cot.runTool (Cot.defaultTools ev) tool_name args
          = .ok ("错误：找不到工具 '" ++ tool_name ++ "'")) := by
  refine ⟨fun jl tools tcs => ⟨fun tc =>
      match jl tc.arguments with
      | .error m => "执行工具 " ++ FC.pyFormatOptStr tc.name ++ " 时出错: " ++ m
      | .ok arguments =>
        match FC.executeTool tools tc.name arguments with
        | .ok result => result
        | .error e => "执行工具 " ++ FC.pyFormatOptStr tc.name ++ " 时出错: " ++ e.msg,
      rfl⟩,
    fun ev v => runTool_calculator ev v, fun ev v => runTool_search ev v,
    fun ev tool_name args hn1 hn2 => ?_⟩
  apply runTool_unknown
  intro t ht
  simp only [Cot.defaultTools, List.mem_cons, List.mem_singleton] at ht
  rcases ht with h | h | h
  · rw [h]
    exact fun hh => hn1 hh.symm
  · rw [h]
    exact fun hh => hn2 hh.symm
  · cases h

/-- Witness for C1 (amended) at an unknown tool name. -/
theorem claim_C1_witness :
    Cot.runTool (Cot.defaultTools pyEvalModel) "weather2" []
      = .ok ("错误：找不到工具 '" ++ "weather2" ++ "'") :=
  claim_C1_amended.2.2.2 pyEvalModel "weather2" [] (by decide) (by decide)

/-- C6: the first tool-call delta at an index establishes the entry's
id and function name; a subsequent delta at the same index appends its
argument text, so fragments concatenate to the complete JSON object
before parsing and dispatch — concretely, the two fragments of the
specification reassemble to the full argument object, which the round
then parses and dispatches as a whole. -/
theorem claim_C6 :
    (∀ (id1 n1 : Option String) (s1 : String) (id2 n2 : Option String) (s2 : String),
      s1 ≠ "" → s2 ≠ "" →
      FC.accSteps [] [{ index := 0, id := id1, fname := n1, arguments := some s1 },
                      { index := 0, id := id2, fname := n2, arguments := some s2 }]
        = .ok [{ id := id1, name := n1, arguments := s1 ++ s2 }])
    ∧ ("\x7b\"expression\"" ++ ":\"3+3\"\x7d" : String) = fullArgsJson
    ∧ FC.accSteps [] [deltaA, deltaB]
        = .ok [{ id := some "call_1", name := some "calculator", arguments := fullArgsJson }]
    ∧ FC.fcRound jlFullArgs (FC.defaultTools pyEvalModel) chunksAB []
        = .next [.mAssistantCalls
              [{ id := some "call_1", name := some "calculator", arguments := fullArgsJson }],
            .mTool (some "call_1") (some "calculator") "计算结果: 6"] := by
  refine ⟨?_, rfl, rfl, rfl⟩
  intro id1 n1 s1 id2 n2 s2 h1 h2
  have hb1 : (s1 == "") = false := beq_eq_false_iff_ne.mpr h1
  have hb2 : (s2 == "") = false := beq_eq_false_iff_ne.mpr h2
  unfold FC.accSteps
  unfold FC.accStep
  simp only [List.length_nil, Nat.le_refl, if_true, List.nil_append, hb1, hb2,
    Bool.false_eq_true, if_false]
  dsimp only [List.get?, List.set]
  unfold FC.accSteps
  rw [str_empty_append]
  simp [FC.accStep, FC.accSteps, hb2]

/-- Witness for C6 at concrete fragments. -/
theorem claim_C6_witness :
    FC.accSteps []
        [{ index := 0, id := some "a", fname := some "calc", arguments := some "x" },
         { index := 0, id := none, fname := none, arguments := some "y" }]
      = .ok [{ id := some "a", name := some "calc", arguments := "x" ++ "y" }] :=
  claim_C6.1 (some "a") (some "calc") "x" none none "y" (by decide) (by decide)

/-- C7: a round that accumulated no tool calls and produced text
terminates the loop with that text as the final answer; a round that
accumulated any tool calls proceeds to the next round regardless of
whether text was also produced. -/
theorem claim_C7 (jl : JsonFn) (tools : List FC.Tool) (stream : Nat → List FC.ChunkDelta)
    (fuel calls : Nat) (history : List FC.FMsg) (content : String)
    (tcs : List FC.AccToolCall)
    (hps : FC.processStream "" [] (stream calls) = .ok (content, tcs)) :
    (tcs = [] → content ≠ "" →
      FC.fcLoop jl tools stream (fuel + 1) calls history
        = .answered content (history ++ [.mAssistant content]) (calls + 1))
    ∧ (tcs ≠ [] →
      FC.fcLoop jl tools stream (fuel + 1) calls history
        = FC.fcLoop jl tools stream fuel (calls + 1)
            ((if content == "" then history else history ++ [.mAssistant content])
              ++ [.mAssistantCalls tcs] ++ FC.processToolCalls jl tools tcs)) := by
  constructor
  · intro htc hc
    have hbc : (content == "") = false := beq_eq_false_iff_ne.mpr hc
    have hr : FC.fcRound jl tools (stream calls) history
        = .done content (history ++ [.mAssistant content]) := by
      unfold FC.fcRound
      rw [hps]
      subst htc
      simp [hbc]
    conv_lhs => unfold FC.fcLoop
    rw [hr]
  · intro htc
    have hie : tcs.isEmpty = false := by
      cases tcs with
      | nil => exact absurd rfl htc
      | cons t ts => rfl
    have hr : FC.fcRound jl tools (stream calls) history
        = .next ((if content == "" then history else history ++ [.mAssistant content])
            ++ [.mAssistantCalls tcs] ++ FC.processToolCalls jl tools tcs) := by
      unfold FC.fcRound
      rw [hps]
      simp only [hie, Bool.not_false, if_true]
    conv_lhs => unfold FC.fcLoop
    rw [hr]

/-- Witness for C7: a text-only round answers; a tool-call round
continues. -/
theorem claim_C7_witness :
    FC.fcLoop jlReject (FC.defaultTools pyEvalModel)
        (fun _ => [{ content := some "hi", tool_calls := [] }]) (4 + 1) 0 []
      = .answered "hi" ([] ++ [.mAssistant "hi"]) (0 + 1) :=
  (claim_C7 jlReject (FC.defaultTools pyEvalModel)
    (fun _ => [{ content := some "hi", tool_calls := [] }]) 4 0 [] "hi" [] rfl).1
    rfl (by decide)
